import Mathlib

/-!
Shallow embedding of the MyClawTradingBot trading core (Python) in Lean 4.

Conventions used throughout this development:
  * Python floats that hold money, prices, sizes and ratios are modelled
    as rationals (`ℚ`); `round(x, n)` is modelled by decimal
    round-half-even on `ℚ` (`pyRound`), matching CPython semantics on
    exactly representable inputs.
  * JSON files on disk are modelled as `Option` of a record type
    (`none` = the file is absent / unreadable, which the code maps to a
    default through `try ... except FileNotFoundError`).
  * Side effects that the executor performs against the exchange client
    or the state files are reified as a list of `Eff` events returned
    alongside the result, so that frame properties ("no order was
    issued", "no trade was recorded") become statements about that list.
  * ISO-8601 timestamps are modelled as epoch seconds (`ℤ`); the code
    paths that merely parse, compare and subtract datetimes are
    translated to integer arithmetic on those.
-/

namespace MyClaw

/-- Decimal round-half-even on rationals: the rounding mode used by
CPython `round` (banker's rounding). -/
def roundHalfEven (q : ℚ) : ℤ :=
  let f := ⌊q⌋
  let r := q - (f : ℚ)
  if r < 1/2 then f
  else if 1/2 < r then f + 1
  else if f % 2 = 0 then f else f + 1

/-- Model of Python `round(q, ndigits)` on rationals. -/
def pyRound (q : ℚ) (ndigits : ℕ) : ℚ :=
  (roundHalfEven (q * ((10 : ℚ) ^ ndigits)) : ℚ) / ((10 : ℚ) ^ ndigits)

/-- Left-pad a numeral string with zeros up to width `n`. -/
def padZeros (n : ℕ) (s : String) : String :=
  String.mk (List.replicate (n - s.length) '0') ++ s

/-- Model of the Python format specifier `:.nf` on rationals (fixed-point
decimal with `n` digits, round-half-even). -/
def fmtFixed (n : ℕ) (q : ℚ) : String :=
  let scaled := roundHalfEven (q * ((10 : ℚ) ^ n))
  let sign := if scaled < 0 then "-" else ""
  let a := scaled.natAbs
  if n = 0 then sign ++ toString a
  else sign ++ toString (a / 10 ^ n) ++ "." ++ padZeros n (toString (a % 10 ^ n))

/-- Model of the Python substring test `pat in s`. -/
def pyIn (pat s : String) : Bool :=
  decide (List.IsInfix pat.data s.data)

/-! ## Kill switch (src/risk/kill_switch.py, src/state/state_manager.py) -/

/-- Contents of state/kill_switch.json. -/
structure KSStatus where
  enabled : Bool
  reason : String
  triggered_at : String
deriving DecidableEq

/-- Embeds `kill_switch.is_active` (src/risk/kill_switch.py lines 18-32):
reads state/kill_switch.json and returns the `enabled` flag; when the
file is absent (`none`) it logs a warning and returns `true`
(fail-safe: absent file = unknown state = stop). -/
def is_active (ksFile : Option KSStatus) : Bool :=
  match ksFile with
  | some data => data.enabled
  | none => true

/-- Embeds `StateManager.get_kill_switch_status` (src/state/state_manager.py
lines 24-28): reads state/kill_switch.json; when the file is absent it
returns the default record with `enabled = false`. -/
def getKillSwitchStatus (ksFile : Option KSStatus) : KSStatus :=
  match ksFile with
  | some data => data
  | none => ⟨false, "", ""⟩

/-- Embeds `kill_switch.activate` (src/risk/kill_switch.py lines 35-43):
the record written to state/kill_switch.json; `now_iso` stands for
`datetime.now(timezone.utc).isoformat()`. -/
def activate (reason : String) (now_iso : String) : KSStatus :=
  ⟨true, reason, now_iso⟩

/-! ## State manager: positions and daily P&L (src/state/state_manager.py) -/

/-- One entry of state/positions.json, with the fields the verified code
paths read. `opened_at` is an epoch-second timestamp (`none` = key
absent). -/
structure Position where
  symbol : String
  size : ℚ
  side : String
  entry_price : ℚ
  unrealized_pnl : ℚ
  opened_at : Option ℤ
deriving DecidableEq

/-- Contents of state/daily_pnl.json. `start_of_day_equity` is optional
because records written before a day rollover may lack the key; the
code reads it with `pnl.get("start_of_day_equity", equity)`. -/
structure DailyPnl where
  date : String
  realized_pnl : ℚ
  unrealized_pnl : ℚ
  start_of_day_equity : Option ℚ
  equity : ℚ
  peak_equity : ℚ
deriving DecidableEq

/-- Embeds `StateManager.update_daily_pnl` (src/state/state_manager.py
lines 125-164). `today` stands for `datetime.now(timezone.utc)` formatted
as YYYY-MM-DD, `prev` for the record read by `get_daily_pnl`. On a date
change the record is reset; then realized is accumulated, unrealized is
taken from the API value when given (else derived from the equity
difference), and `peak_equity` is tracked on a realized-only basis
`max(peak, start_of_day + realized)`. -/
def update_daily_pnl (today : String) (prev : DailyPnl) (equity : ℚ)
    (realized_pnl : ℚ) (api_unrealized_pnl : Option ℚ) : DailyPnl :=
  let pnl := if prev.date ≠ today then
      { date := today, realized_pnl := 0, unrealized_pnl := 0,
        start_of_day_equity := some equity, equity := equity,
        peak_equity := equity }
    else prev
  let realized := pnl.realized_pnl + realized_pnl
  let start_equity := pnl.start_of_day_equity.getD equity
  let unrealized := match api_unrealized_pnl with
    | some u => u
    | none => equity - start_equity - realized
  let realized_equity := start_equity + realized
  { pnl with
      realized_pnl := realized,
      unrealized_pnl := unrealized,
      equity := equity,
      peak_equity := max pnl.peak_equity realized_equity }

/-- Embeds `StateManager._sum_unrealized_from_positions`
(src/state/state_manager.py lines 42-49); the typed embedding renders
the defensive `isinstance`/`safe_float` coercions as direct field
access. -/
def sum_unrealized_from_positions (positions : List Position) : ℚ :=
  positions.foldl (fun total p => total + p.unrealized_pnl) 0

/-- Embeds `StateManager.reconcile_daily_unrealized`
(src/state/state_manager.py lines 166-189) for a present, non-empty
daily record `pnl`: when the positions sum differs from the stored
unrealized by strictly less than `tolerance_usd` the record is returned
unchanged, otherwise `unrealized_pnl` is overwritten with the positions
sum and `equity` with `start_of_day + realized + unrealized`. -/
def reconcile_daily_unrealized (positions : List Position) (pnl : DailyPnl)
    (tolerance_usd : ℚ) : DailyPnl :=
  let pos_upnl := sum_unrealized_from_positions positions
  let current_upnl := pnl.unrealized_pnl
  if |pos_upnl - current_upnl| < tolerance_usd then pnl
  else
    let start := pnl.start_of_day_equity.getD pnl.equity
    let realized := pnl.realized_pnl
    { pnl with unrealized_pnl := pos_upnl, equity := start + realized + pos_upnl }

/-! ## Risk manager (src/risk/risk_manager.py) -/

/-- Embeds `RiskManager.check_daily_loss` (src/risk/risk_manager.py lines
82-101): returns `true` (kill switch should trigger) when total daily
P&L is negative and its magnitude, as a percentage of current equity,
reaches the configured `daily_loss_pct` limit. -/
def check_daily_loss (daily_loss_pct : ℚ) (realized unrealized equity : ℚ) : Bool :=
  let total := realized + unrealized
  if equity > 0 ∧ total < 0 then
    decide (|total| / equity * 100 ≥ daily_loss_pct)
  else false

/-- Embeds `RiskManager.check_max_drawdown` (src/risk/risk_manager.py
lines 103-121). -/
def check_max_drawdown (max_dd_pct : ℚ) (current_equity peak_equity : ℚ) : Bool :=
  if peak_equity > 0 then
    decide ((peak_equity - current_equity) / peak_equity * 100 ≥ max_dd_pct)
  else false

/-! ## Supervisor risk-limit section (src/monitor/monitor.py lines 527-558) -/

/-- Outcome of the risk-limit block of one supervisor cycle:
`killReason` is the reason written through `kill_switch.activate` when
the block trips (else `none`), and `closedAllPositions` records whether
`_close_all_positions()` was invoked. -/
structure MonitorOutcome where
  killReason : Option String
  closedAllPositions : Bool
deriving DecidableEq

/-- Embeds the risk-limit checks of `run_monitor`
(src/monitor/monitor.py lines 527-558): runs only when a daily record
exists with positive equity and the kill switch is not already active;
skips when equity fails the 10%-of-start sanity check; otherwise
activates the kill switch and closes all positions on a daily-loss or
max-drawdown breach. -/
def monitor_risk_check (ksFile : Option KSStatus) (daily : Option DailyPnl)
    (daily_loss_pct max_drawdown_pct : ℚ) : MonitorOutcome :=
  match daily with
  | none => ⟨none, false⟩
  | some d =>
    if ¬ (d.equity > 0) then ⟨none, false⟩
    else if is_active ksFile then ⟨none, false⟩
    else
      let equity := d.equity
      let start_equity := d.start_of_day_equity.getD equity
      if start_equity > 0 ∧ equity < start_equity * (1/10) then ⟨none, false⟩
      else if check_daily_loss daily_loss_pct d.realized_pnl d.unrealized_pnl equity then
        ⟨some "daily_loss_5pct_exceeded", true⟩
      else if check_max_drawdown max_drawdown_pct equity d.peak_equity then
        ⟨some "max_drawdown_15pct_exceeded", true⟩
      else ⟨none, false⟩

/-! ## Trade executor (src/executor/trade_executor.py) -/

/-- A trading signal as read from signals/signals.json (the fields the
executor touches). `none` models an absent key or a JSON `null`. -/
structure Signal where
  symbol : String
  action : String
  confidence : ℚ
  entry_price : Option ℚ
  stop_loss : Option ℚ
  take_profit : Option ℚ
  leverage : Option ℚ
  size : Option ℚ
  reasoning : String
  exit_mode : Option String
  pattern : Option String
deriving DecidableEq

/-- One entry of state/trade_history.json. Timestamps are epoch seconds. -/
structure Trade where
  symbol : String
  side : String
  size : ℚ
  entry_price : ℚ
  exit_price : Option ℚ
  pnl : Option ℚ
  opened_at : Option ℤ
  closed_at : Option ℤ
  recorded_at : Option ℤ
deriving DecidableEq

/-- Reified side effects of the executor: calls into the Hyperliquid
client and writes to the state files. -/
inductive Eff where
  | getEquity
  | placeMarketOrder (symbol side : String) (size leverage : ℚ)
  | closePositionCall (symbol : String)
  | recordTrade (t : Trade)
  | updateDailyPnlEff (equity realized : ℚ) (api_unrealized : Option ℚ)
  | saveRubberMeta (symbol : String)
  | clearRubberMeta (symbol : String)
  | syncPositions
deriving DecidableEq

/-- Normalized order outcome produced by `HLClient.place_market_order` /
`HLClient.close_position`. -/
structure OrderResult where
  status : String
  fill_price : ℚ
  error : String
deriving DecidableEq

/-- Result record returned by the executor for one signal. -/
structure ExecResult where
  symbol : String
  action : String
  status : String
  reason : Option String
  fill_price : Option ℚ
  size : Option ℚ
  leverage : Option ℚ
deriving DecidableEq

/-- Outcome of the `RiskManager.validate_signal` call wrapped in
`try/except` inside `execute_signal` (src/executor/trade_executor.py
lines 136-147): validation passed, validation rejected with a reason,
the RiskManager import failed (check skipped), or the check raised
(signal rejected for safety). -/
inductive RiskOutcome where
  | allowed
  | rejected (reason : String)
  | importSkip
  | errorReject (reason : String)
deriving DecidableEq

/-- Environment of one executor run: configuration plus the responses of
the exchange client and of the file reads that `execute_signal`
performs. Function-valued fields stand for the corresponding calls. -/
structure ExecEnv where
  execution_mode : String
  min_confidence : ℚ
  default_leverage : ℚ
  equity : ℚ
  positions : List Position
  riskOutcome : Signal → List Position → ℚ → RiskOutcome
  compositeGate : Signal → ℚ → Bool × String
  calcSize : String → ℚ → Option ℚ
  midPrice : String → ℚ
  applySizeCaps : String → ℚ → ℚ → ℚ → Option ℚ
  openResult : String → String → ℚ → ℚ → OrderResult
  closeResult : String → OrderResult
  syncedPositions : List Position
  now : ℤ

/-- Embeds `TradeExecutor.close_position` (src/executor/trade_executor.py
lines 235-289). Looks up the cached position for P&L recording, issues
`client.close_position`, and on a `closed` status with a cached entry
records the trade and updates daily P&L with the realized delta. -/
def close_position (env : ExecEnv) (symbol : String) : ExecResult × List Eff :=
  let positions := env.positions
  let existing := positions.find? (fun p => p.symbol = symbol)
  let close_result := env.closeResult symbol
  let status := close_result.status
  let fill_price := close_result.fill_price
  if status = "no_position" then
    (⟨symbol, "close", "no_position", none, some 0, none, none⟩,
     [Eff.closePositionCall symbol])
  else
    let effs :=
      match existing with
      | some ex =>
        if status = "closed" then
          let pnl := if ex.side = "long" then (fill_price - ex.entry_price) * ex.size
                     else (ex.entry_price - fill_price) * ex.size
          [Eff.closePositionCall symbol,
           Eff.recordTrade ⟨symbol, ex.side, ex.size, ex.entry_price,
             some fill_price, some pnl, ex.opened_at, some env.now, none⟩,
           Eff.getEquity,
           Eff.updateDailyPnlEff env.equity pnl none]
        else [Eff.closePositionCall symbol]
      | none => [Eff.closePositionCall symbol]
    (⟨symbol, "close", status, none, some fill_price, none, none⟩, effs)

/-- Embeds `TradeExecutor.open_position` (src/executor/trade_executor.py
lines 186-233): issues `client.place_market_order` and records the trade
on a filled or partial status with a positive fill price. -/
def open_position (env : ExecEnv) (symbol side : String) (size leverage : ℚ) :
    ExecResult × List Eff :=
  let order := env.openResult symbol side size leverage
  let status := order.status
  let fill_price := order.fill_price
  if status = "error" then
    (⟨symbol, side, "error", some order.error, none, none, none⟩,
     [Eff.placeMarketOrder symbol side size leverage])
  else
    let effs := [Eff.placeMarketOrder symbol side size leverage] ++
      (if (status = "filled" ∨ status = "partial") ∧ fill_price > 0 then
        [Eff.recordTrade ⟨symbol, side, size, fill_price, none, none,
          some env.now, none, none⟩]
      else [])
    (⟨symbol, side, status, none, some fill_price, some size, some leverage⟩, effs)

/-- Embeds `TradeExecutor.execute_signal` (src/executor/trade_executor.py
lines 107-184): mode filter, hold skip, confidence skip, risk
validation, composite entry gate for long/short, then dispatch to
`close_position` / `open_position` (recording rubber metadata writes as
effects). The returned list reifies every client call and state write
the invocation performs. -/
def execute_signal (env : ExecEnv) (signal : Signal) : Option ExecResult × List Eff :=
  let symbol := signal.symbol
  let action := signal.action
  let confidence := signal.confidence
  if env.execution_mode = "close_only" ∧ action ≠ "close" then (none, [])
  else if action = "hold" ∨ action = "hold_position" then (none, [])
  else if action ≠ "close" ∧ confidence < env.min_confidence then (none, [])
  else
    let effs0 := [Eff.getEquity]
    let equity := env.equity
    let positions := env.positions
    match env.riskOutcome signal positions equity with
    | RiskOutcome.rejected reason =>
      (some ⟨symbol, action, "rejected", some reason, none, none, none⟩, effs0)
    | RiskOutcome.errorReject reason =>
      (some ⟨symbol, action, "rejected", some reason, none, none, none⟩, effs0)
    | _ =>
      let gate :=
        if action = "long" ∨ action = "short" then env.compositeGate signal equity
        else (true, "")
      if gate.1 = false then
        (some ⟨symbol, action, "rejected", some gate.2, none, none, none⟩, effs0)
      else
        let leverage := signal.leverage.getD env.default_leverage
        if action = "close" then
          let (result, ceffs) := close_position env symbol
          let clear :=
            if result.status = "closed" ∧ (symbol = "ETH" ∨ symbol = "SOL") then
              [Eff.clearRubberMeta symbol]
            else []
          (some result, effs0 ++ ceffs ++ clear)
        else if action = "long" ∨ action = "short" then
          let sizeOpt :=
            match signal.size with
            | none => env.calcSize symbol leverage
            | some s => env.applySizeCaps symbol s (env.midPrice symbol) equity
          match signal.size, sizeOpt with
          | none, none =>
            (some ⟨symbol, action, "error", some "failed to calculate size", none, none, none⟩, effs0)
          | some _, none =>
            (some ⟨symbol, action, "rejected", some "size blocked by hard cap", none, none, none⟩, effs0)
          | _, some size =>
            let (result, oeffs) := open_position env symbol action size leverage
            let save :=
              if result.status = "filled" ∨ result.status = "partial" then
                [Eff.saveRubberMeta symbol]
              else []
            (some result, effs0 ++ oeffs ++ save)
        else (none, effs0)

/-- Embeds `TradeExecutor.execute_signals` (src/executor/trade_executor.py
lines 63-105): kill-switch gate via `StateManager.get_kill_switch_status`,
signal file read, per-signal execution, then a positions sync and daily
P&L reconciliation when any result was produced. `signalsFile = none`
models an absent or unreadable signals/signals.json. -/
def execute_signals (env : ExecEnv) (ksFile : Option KSStatus)
    (signalsFile : Option (List Signal)) : List ExecResult × List Eff :=
  let ks := getKillSwitchStatus ksFile
  if ks.enabled then ([], [])
  else
    match signalsFile with
    | none => ([], [])
    | some signals =>
      let step := signals.foldl
        (fun (acc : List ExecResult × List Eff) s =>
          let (r, effs) := execute_signal env s
          (acc.1 ++ (match r with | some x => [x] | none => []), acc.2 ++ effs))
        ([], [])
      if step.1 = [] then step
      else
        let api_unrealized := sum_unrealized_from_positions env.syncedPositions
        let tail := [Eff.syncPositions, Eff.getEquity] ++
          (if env.equity > 0 then [Eff.updateDailyPnlEff env.equity 0 (some api_unrealized)]
           else [])
        (step.1, step.2 ++ tail)

/-- Embeds `TradeExecutor._check_rr` (src/executor/trade_executor.py
lines 578-611): time-cut signals skip the check; a missing or zero
entry/SL/TP skips the check (Python truthiness of `0.0`); otherwise risk
and reward are taken in the trade direction, non-positive geometry
fails, and the ratio is compared against `min_rr`. -/
def check_rr (min_rr : ℚ) (signal : Signal) (action : String) : Bool × String :=
  if signal.exit_mode = some "time_cut" then
    (true, "RR check skipped (time_cut exit)")
  else
    match signal.entry_price, signal.stop_loss, signal.take_profit with
    | some entry, some sl, some tp =>
      if entry = 0 ∨ sl = 0 ∨ tp = 0 then
        (true, "RR check skipped (entry/SL/TP missing)")
      else
        let risk := if action = "long" then entry - sl else sl - entry
        let reward := if action = "long" then tp - entry else entry - tp
        if risk ≤ 0 ∨ reward ≤ 0 then
          (false, "invalid RR geometry (risk=" ++ fmtFixed 6 risk ++
            ", reward=" ++ fmtFixed 6 reward ++ ")")
        else if reward / risk < min_rr then
          (false, "RR " ++ fmtFixed 2 (reward / risk) ++ " < minimum " ++ fmtFixed 2 min_rr)
        else (true, "RR ok (" ++ fmtFixed 2 (reward / risk) ++ ")")
    | _, _, _ => (true, "RR check skipped (entry/SL/TP missing)")

/-! ## BTC rubber wall threshold cache (src/strategy/btc_rubber_wall.py) -/

/-- A 5-minute candle (`t` in epoch milliseconds). -/
structure Candle where
  t : ℤ
  o : ℚ
  h : ℚ
  l : ℚ
  c : ℚ
  v : ℚ
deriving DecidableEq

/-- Sum of the volumes of `candles[a:b]` (the Python slice sum inside
`_build_next_cache`). -/
def sumVolRange (candles : List Candle) (a b : ℕ) : ℚ :=
  ((candles.drop a).take (b - a)).foldl (fun s c => s + c.v) 0

/-- Threshold cache for the next bar; `threshold_vol = none` models the
Python `float("inf")` stored when the threshold is unreachable. -/
structure NextCache where
  next_target_t : ℤ
  threshold_vol : Option ℚ
deriving DecidableEq

/-- Embeds `BtcRubberWall._build_next_cache`
(src/strategy/btc_rubber_wall.py lines 397-435): for the next bar
`current_idx + 1` it sums the known window volumes, and stores
`vol_threshold * sum_known / (n_total - vol_threshold)` rounded to four
decimals, or infinity (`none`) when `n_total ≤ vol_threshold`. -/
def build_next_cache (candles : List Candle) (current_idx : ℕ)
    (vol_window : ℕ) (vol_threshold : ℚ) : NextCache :=
  let next_idx := current_idx + 1
  let start := (max 0 ((next_idx : ℤ) - (vol_window : ℤ) + 1)).toNat
  let stop := min (current_idx + 1) candles.length
  let sum_known := sumVolRange candles start stop
  let n_known := stop - start
  let n_total := n_known + 1
  let denominator := (n_total : ℚ) - vol_threshold
  let threshold_vol : Option ℚ :=
    if denominator ≤ 0 then none
    else some (pyRound (vol_threshold * sum_known / denominator) 4)
  let next_t :=
    if hlt : next_idx < candles.length then (candles.get ⟨next_idx, hlt⟩).t
    else (candles.getD current_idx ⟨0, 0, 0, 0, 0, 0⟩).t + 300000
  ⟨next_t, threshold_vol⟩

/-! ## Brain consensus rubber exit scan (src/brain/brain_consensus.py) -/

/-- Contents of state/<symbol>_rubber_meta.json as read by the exit
scan. A missing `direction` key is modelled by the empty string (both
are falsy for `meta.get("direction")`). -/
structure RubberMeta where
  direction : String
  stop_loss : ℚ
  take_profit : ℚ
  exit_mode : String
  exit_bars : ℕ
  bar_count : ℕ
  pattern : String
deriving DecidableEq

/-- Signal emitted by the strategy/exit layer of the brain. -/
structure BrainSig where
  symbol : String
  action : String
  direction : String
  confidence : ℚ
  reasoning : String
  zone : String
  pattern : String
deriving DecidableEq

/-- Embeds `_has_live_position` (src/brain/brain_consensus.py lines
284-296): true when state/positions.json is a readable list containing
an entry for `symbol` with a non-zero size. -/
def has_live_position (positionsFile : Option (List Position)) (symbol : String) : Bool :=
  match positionsFile with
  | none => false
  | some positions => positions.any (fun p => decide (p.symbol = symbol ∧ p.size ≠ 0))

/-- Meta validity test of the exit scan: the meta file must parse to a
record with a truthy `direction`. -/
def metaInvalid (metaFile : Option RubberMeta) : Bool :=
  match metaFile with
  | none => true
  | some m => decide (m.direction = "")

/-- Embeds `_check_rubber_exits` (src/brain/brain_consensus.py lines
164-276): when the meta file is absent or has no direction but a live
position exists, a meta-less `hold_position` signal is emitted (with a
warning) instead of an empty result; otherwise SL, TP and time-cut
checks run against the mid price. The second component is the meta
record written back by the pending time-cut branch. -/
def check_rubber_exits (symbol : String) (metaFile : Option RubberMeta)
    (positionsFile : Option (List Position)) (mid_price : ℚ) :
    List BrainSig × Option RubberMeta :=
  if metaInvalid metaFile then
    if has_live_position positionsFile symbol then
      ([⟨symbol, "hold_position", "hold_position", 1,
         symbol ++ "Rubber holding (meta-less): live position detected, meta file missing. Manual close may be required.",
         "holding", "unknown"⟩], none)
    else ([], none)
  else
    match metaFile with
    | none => ([], none)
    | some meta =>
      if mid_price ≤ 0 then ([], none)
      else
        let direction := meta.direction
        let sl_price := meta.stop_loss
        let tp_price := meta.take_profit
        let exit_mode := meta.exit_mode
        let exit_bars := meta.exit_bars
        let bar_count := meta.bar_count
        let pattern := meta.pattern
        let slReason : Option String :=
          if sl_price > 0 ∧ direction = "long" ∧ mid_price ≤ sl_price then
            some ("SL hit: mid=" ++ fmtFixed 4 mid_price ++ " <= SL=" ++ fmtFixed 4 sl_price)
          else if sl_price > 0 ∧ direction = "short" ∧ mid_price ≥ sl_price then
            some ("SL hit: mid=" ++ fmtFixed 4 mid_price ++ " >= SL=" ++ fmtFixed 4 sl_price)
          else none
        let close_reason : Option String :=
          match slReason with
          | some r => some r
          | none =>
            if exit_mode = "tp_sl" ∧ tp_price > 0 then
              if direction = "long" ∧ mid_price ≥ tp_price then
                some ("TP hit: mid=" ++ fmtFixed 4 mid_price ++ " >= TP=" ++ fmtFixed 4 tp_price)
              else if direction = "short" ∧ mid_price ≤ tp_price then
                some ("TP hit: mid=" ++ fmtFixed 4 mid_price ++ " <= TP=" ++ fmtFixed 4 tp_price)
              else none
            else none
        if close_reason = none ∧ exit_mode = "time_cut" ∧ exit_bars > 0 then
          let bc := bar_count + 1
          if bc ≥ exit_bars then
            ([⟨symbol, "close", "close", 1,
               symbol ++ "Rubber exit (" ++ pattern ++ "): Time cut: " ++
                 toString bc ++ "/" ++ toString exit_bars ++ " bars",
               "exit", pattern⟩], none)
          else
            ([⟨symbol, "hold_position", "hold_position", 1,
               symbol ++ "Rubber holding (" ++ pattern ++ "): bar " ++
                 toString bc ++ "/" ++ toString exit_bars ++ ", mid=" ++
                 fmtFixed 4 mid_price ++ ", SL=" ++ fmtFixed 4 sl_price,
               "holding", pattern⟩], some { meta with bar_count := bc })
        else
          match close_reason with
          | some r =>
            ([⟨symbol, "close", "close", 1,
               symbol ++ "Rubber exit (" ++ pattern ++ "): " ++ r,
               "exit", pattern⟩], none)
          | none =>
            ([⟨symbol, "hold_position", "hold_position", 1,
               symbol ++ "Rubber holding (" ++ pattern ++ "): mid=" ++
                 fmtFixed 4 mid_price ++ ", SL=" ++ fmtFixed 4 sl_price ++
                 ", TP=" ++ fmtFixed 4 tp_price ++ " (" ++ exit_mode ++ ")",
               "holding", pattern⟩], none)

/-! ## Signal merger (src/brain/signal_merger.py) -/

/-- Per-symbol signal of agent T or F. `leverage = none` also models a
non-integer leverage value (the code falls back to 3 for those). -/
structure AgentSignal where
  symbol : String
  action : String
  confidence : ℚ
  direction : String
  reasoning : String
  entry_price : Option ℚ
  stop_loss : Option ℚ
  take_profit : Option ℚ
  leverage : Option ℤ
deriving DecidableEq

/-- Per-symbol decision of agent R. -/
structure RDecision where
  symbol : String
  verdict : String
  final_action : String
  confidence : ℚ
  reasoning : String
  leverage : Option ℤ
  stop_loss : Option ℚ
  take_profit : Option ℚ
deriving DecidableEq

/-- Signal produced by the merger (signal_schema shape). -/
structure MergedSig where
  symbol : String
  action : String
  confidence : ℚ
  entry_price : Option ℚ
  stop_loss : Option ℚ
  take_profit : Option ℚ
  leverage : ℤ
  reasoning : String
deriving DecidableEq

/-- Embeds `_build_hold_signal` (src/brain/signal_merger.py lines
103-114). -/
def build_hold_signal (symbol reasoning : String) : MergedSig :=
  ⟨symbol, "hold", 0, none, none, none, 3, reasoning⟩

/-- Model of the Python `a or b` chain on optional floats: `None` and
`0.0` are falsy and fall through to the right operand. -/
def pyOrQ (a b : Option ℚ) : Option ℚ :=
  match a with
  | some x => if x = 0 then b else some x
  | none => b

/-- Minimum-hold constants (src/brain/signal_merger.py lines 117-120). -/
def MIN_HOLD_CYCLES : ℕ := 2

/-- Cycle length in minutes (src/brain/signal_merger.py line 118). -/
def CYCLE_MINUTES : ℕ := 5

/-- Minimum holding time in minutes (= 10). -/
def MIN_HOLD_MINUTES : ℕ := MIN_HOLD_CYCLES * CYCLE_MINUTES

/-- Minimum R confidence that lets a close through the min-hold window
(src/brain/signal_merger.py line 120). -/
def R_CRITICAL_CLOSE_CONF : ℚ := 9/10

/-- Embeds `_get_position_opened_at` (src/brain/signal_merger.py lines
123-171): the first cached position for the symbol carrying an
`opened_at` wins; otherwise the latest still-open entry in the trade
history (timestamps already parsed to epoch seconds; unparsable
timestamps are folded into `none`). -/
def get_position_opened_at (positions : List Position) (symbol : String)
    (trade_history : List Trade) : Option ℤ :=
  match positions.find? (fun p => decide (p.symbol = symbol) && p.opened_at.isSome) with
  | some p => p.opened_at
  | none =>
    trade_history.foldl
      (fun latest t =>
        if t.symbol = symbol ∧ t.closed_at = none then
          match t.opened_at.orElse (fun _ => t.recorded_at) with
          | some ts =>
            match latest with
            | some cur => if ts > cur then some ts else some cur
            | none => some ts
          | none => latest
        else latest) none

/-- Embeds `_is_within_min_hold_period` (src/brain/signal_merger.py
lines 174-179). -/
def is_within_min_hold_period (now : ℤ) (opened_at : Option ℤ) : Bool :=
  match opened_at with
  | none => false
  | some t => decide ((((now - t : ℤ) : ℚ) / 60) < (MIN_HOLD_MINUTES : ℚ))

/-- Embeds `_calc_ema` (src/brain/signal_merger.py lines 26-34). -/
def calc_ema (values : List ℚ) (period : ℕ) : List ℚ :=
  if values.length < period then []
  else
    let k : ℚ := 2 / ((period : ℚ) + 1)
    let init := (values.take period).foldl (fun a b => a + b) 0 / (period : ℚ)
    ((values.drop period).foldl
      (fun (acc : List ℚ × ℚ) v =>
        let e := v * k + acc.2 * (1 - k)
        (acc.1 ++ [e], e)) ([init], init)).1

/-- Embeds `_calc_macd_histogram` (src/brain/signal_merger.py lines
37-53). -/
def calc_macd_histogram (closes : List ℚ) (fast slow signal_period : ℕ) : Option ℚ :=
  if closes.length < slow + signal_period then none
  else
    let ema_fast := calc_ema closes fast
    let ema_slow := calc_ema closes slow
    if ema_fast = [] ∨ ema_slow = [] then none
    else
      let min_len := min ema_fast.length ema_slow.length
      let macd_line := List.zipWith (fun f s => f - s)
        (ema_fast.drop (ema_fast.length - min_len))
        (ema_slow.drop (ema_slow.length - min_len))
      if macd_line.length < signal_period then none
      else
        let signal_line := calc_ema macd_line signal_period
        if signal_line = [] then none
        else some (macd_line.getLast?.getD 0 - signal_line.getLast?.getD 0)

/-- Per-symbol slice of data/market_data.json that the 4H trend filter
reads. -/
structure SymbolMarket where
  candles_4h : List Candle
deriving DecidableEq

/-- Market snapshot passed to the merger. -/
structure MarketData where
  symbols : List (String × SymbolMarket)
deriving DecidableEq

/-- Result of the 4H trend filter. -/
structure TrendFilter where
  bearish : Bool
  ema9 : Option ℚ
  ema21 : Option ℚ
  macd_hist : Option ℚ
  reason : String
deriving DecidableEq

/-- Embeds `_get_4h_trend_filter` (src/brain/signal_merger.py lines
56-92). -/
def get_4h_trend_filter (market_data : MarketData) (symbol : String) : TrendFilter :=
  let sym_data := ((market_data.symbols.find? (fun p => decide (p.1 = symbol))).map Prod.snd).getD ⟨[]⟩
  let candles_4h := sym_data.candles_4h
  if candles_4h.length < 26 then
    ⟨false, none, none, none, "4Hデータ不足(" ++ toString candles_4h.length ++ "本)"⟩
  else
    let closes := candles_4h.map (fun c => c.c)
    let ema9 := (calc_ema closes 9).getLast?
    let ema21 := (calc_ema closes 21).getLast?
    let macd_hist := calc_macd_histogram closes 12 26 9
    match ema9, ema21, macd_hist with
    | some e9, some e21, some mh =>
      let bearish := decide (e9 < e21) && decide (mh < 0)
      let tag := if bearish then "下降トレンド" else "トレンドフィルター非該当"
      ⟨bearish, some e9, some e21, some mh,
       "4H EMA9=" ++ fmtFixed 2 e9 ++ ", EMA21=" ++ fmtFixed 2 e21 ++
         ", MACD_hist=" ++ fmtFixed 4 mh ++ " → " ++ tag⟩
    | e9, e21, mh => ⟨false, e9, e21, mh, "EMA/MACD計算失敗"⟩

/-- Embeds the per-symbol body of the `merge_signals` loop
(src/brain/signal_merger.py lines 217-445): close arbitration with the
minimum-hold rule, R rejection, full and partial entry consensus with
the 4H trend filter, conflict and double-hold fallbacks. The
consensus-log and statistics bookkeeping of the source, which only feeds
logging and the journal, is not modelled. -/
def merge_symbol (now : ℤ) (symbol : String)
    (t_sig f_sig : Option AgentSignal) (r_decision : Option RDecision)
    (positions : List Position) (trade_history : List Trade)
    (market_data : Option MarketData) : MergedSig :=
  let t_action := (t_sig.map (fun s => s.action)).getD "hold"
  let t_conf := (t_sig.map (fun s => s.confidence)).getD 0
  let t_direction := (t_sig.map (fun s => s.direction)).getD "neutral"
  let f_action := (f_sig.map (fun s => s.action)).getD "hold"
  let f_conf := (f_sig.map (fun s => s.confidence)).getD 0
  let f_direction := (f_sig.map (fun s => s.direction)).getD "neutral"
  let r_verdict := (r_decision.map (fun d => d.verdict)).getD "reject"
  let r_action := (r_decision.map (fun d => d.final_action)).getD "hold"
  let any_close := t_action = "close" ∨ f_action = "close" ∨ r_action = "close"
  if any_close then
    let reasoning_parts :=
      (if t_action = "close" then
        ["T:close(" ++ (t_sig.map (fun s => s.reasoning)).getD "" ++ ")"] else []) ++
      (if f_action = "close" then
        ["F:close(" ++ (f_sig.map (fun s => s.reasoning)).getD "" ++ ")"] else []) ++
      (if r_action = "close" then
        ["R:close(" ++ (r_decision.map (fun d => d.reasoning)).getD "" ++ ")"] else [])
    let opened_at := get_position_opened_at positions symbol trade_history
    if is_within_min_hold_period now opened_at then
      let r_conf := (r_decision.map (fun d => d.confidence)).getD 0
      let r_is_critical_close := r_action = "close" ∧ r_conf ≥ R_CRITICAL_CLOSE_CONF
      let elapsed_min : ℚ := ((now - opened_at.getD 0 : ℤ) : ℚ) / 60
      if ¬ r_is_critical_close then
        build_hold_signal symbol
          ("[最低保有時間] エントリーから" ++ fmtFixed 1 elapsed_min ++ "分 < " ++
            toString MIN_HOLD_MINUTES ++
            "分。R critical close (conf>=0.9) 未達のためhold。元の判断: " ++
            String.intercalate "; " reasoning_parts)
      else
        let parts := reasoning_parts ++
          ["[R_CRITICAL_CLOSE: conf=" ++ fmtFixed 2 r_conf ++ ">=0.9, elapsed=" ++
            fmtFixed 1 elapsed_min ++ "m]"]
        ⟨symbol, "close", 9/10, none, none, none, 3,
          "[合議:OUT] " ++ String.intercalate "; " parts⟩
    else
      ⟨symbol, "close", 9/10, none, none, none, 3,
        "[合議:OUT] " ++ String.intercalate "; " reasoning_parts⟩
  else if r_verdict = "reject" then
    build_hold_signal symbol
      ("[合議:REJECT] T:" ++ t_action ++ "(" ++ fmtFixed 2 t_conf ++ "), F:" ++
        f_action ++ "(" ++ fmtFixed 2 f_conf ++ "), R:reject(" ++
        (r_decision.map (fun d => d.reasoning)).getD "no output" ++ ")")
  else
    let t_trade_action := if t_action = "long" ∨ t_action = "short" then t_action else "hold"
    let f_trade_action := if f_action = "long" ∨ f_action = "short" then f_action else "hold"
    if (t_trade_action = "long" ∨ t_trade_action = "short") ∧ t_trade_action = f_trade_action then
      let avg_conf := (t_conf + f_conf) / 2
      let fallback : ℤ × Option ℚ × Option ℚ :=
        (min (min ((t_sig.bind (fun s => s.leverage)).getD 3)
                  ((f_sig.bind (fun s => s.leverage)).getD 3)) 5,
         pyOrQ (t_sig.bind (fun s => s.stop_loss)) (f_sig.bind (fun s => s.stop_loss)),
         pyOrQ (t_sig.bind (fun s => s.take_profit)) (f_sig.bind (fun s => s.take_profit)))
      let lst : ℤ × Option ℚ × Option ℚ :=
        match r_decision with
        | some rd =>
          if r_verdict = "modify" then
            (rd.leverage.getD 3,
             pyOrQ rd.stop_loss
               (pyOrQ (t_sig.bind (fun s => s.stop_loss)) (f_sig.bind (fun s => s.stop_loss))),
             pyOrQ rd.take_profit
               (pyOrQ (t_sig.bind (fun s => s.take_profit)) (f_sig.bind (fun s => s.take_profit))))
          else fallback
        | none => fallback
      let entry_price := pyOrQ (t_sig.bind (fun s => s.entry_price)) (f_sig.bind (fun s => s.entry_price))
      ⟨symbol, t_trade_action, pyRound avg_conf 3, entry_price, lst.2.1, lst.2.2, lst.1,
        "[合議:IN] T:" ++ t_action ++ "/" ++ t_direction ++ "(" ++ fmtFixed 2 t_conf ++
          "), F:" ++ f_action ++ "/" ++ f_direction ++ "(" ++ fmtFixed 2 f_conf ++
          "), R:" ++ r_verdict ++ "(" ++ (r_decision.map (fun d => d.reasoning)).getD "" ++ ")"⟩
    else if ((t_trade_action = "long" ∨ t_trade_action = "short") ∧ f_trade_action = "hold") ∨
            ((f_trade_action = "long" ∨ f_trade_action = "short") ∧ t_trade_action = "hold") then
      let lead_is_t := t_trade_action = "long" ∨ t_trade_action = "short"
      let lead_agent := if lead_is_t then "T" else "F"
      let lead_action := if lead_is_t then t_trade_action else f_trade_action
      let lead_conf := if lead_is_t then t_conf else f_conf
      let lead_sig := if lead_is_t then t_sig else f_sig
      let blocked : Option String :=
        if lead_agent = "F" ∧ lead_action = "long" ∧ market_data.isSome then
          let trend := get_4h_trend_filter (market_data.getD ⟨[]⟩) symbol
          if trend.bearish then
            some ("[合議:4Hフィルター] F単独longを下降トレンドでブロック。" ++
              trend.reason ++ "。T:" ++ t_action ++ "/" ++ t_direction ++ "(" ++
              fmtFixed 2 t_conf ++ "), F:" ++ f_action ++ "/" ++ f_direction ++
              "(" ++ fmtFixed 2 f_conf ++ ")")
          else none
        else none
      match blocked with
      | some reason => build_hold_signal symbol reason
      | none =>
        let discounted_conf := pyRound lead_conf 3
        let fallback : ℤ × Option ℚ × Option ℚ :=
          (min ((lead_sig.bind (fun s => s.leverage)).getD 3) 3,
           lead_sig.bind (fun s => s.stop_loss),
           lead_sig.bind (fun s => s.take_profit))
        let lst : ℤ × Option ℚ × Option ℚ :=
          match r_decision with
          | some rd =>
            if r_verdict = "modify" then
              (min (rd.leverage.getD 3) 3,
               pyOrQ rd.stop_loss (lead_sig.bind (fun s => s.stop_loss)),
               pyOrQ rd.take_profit (lead_sig.bind (fun s => s.take_profit)))
            else fallback
          | none => fallback
        ⟨symbol, lead_action, discounted_conf, lead_sig.bind (fun s => s.entry_price),
          lst.2.1, lst.2.2, lst.1,
          "[合議:部分IN(" ++ lead_agent ++ "主導)] T:" ++ t_action ++ "/" ++ t_direction ++
            "(" ++ fmtFixed 2 t_conf ++ "), F:" ++ f_action ++ "/" ++ f_direction ++
            "(" ++ fmtFixed 2 f_conf ++ "), R:" ++ r_verdict ++ "(" ++
            (r_decision.map (fun d => d.reasoning)).getD "" ++ ")"⟩
    else if (t_trade_action = "long" ∨ t_trade_action = "short") ∧
            (f_trade_action = "long" ∨ f_trade_action = "short") ∧
            t_trade_action ≠ f_trade_action then
      build_hold_signal symbol
        ("[合議:矛盾] T:" ++ t_action ++ "/" ++ t_direction ++ "(" ++ fmtFixed 2 t_conf ++
          "), F:" ++ f_action ++ "/" ++ f_direction ++ "(" ++ fmtFixed 2 f_conf ++
          "), R:" ++ r_verdict)
    else
      build_hold_signal symbol
        ("[合議:様子見] T:" ++ t_action ++ "/" ++ t_direction ++ "(" ++ fmtFixed 2 t_conf ++
          "), F:" ++ f_action ++ "/" ++ f_direction ++ "(" ++ fmtFixed 2 f_conf ++
          "), R:" ++ r_verdict)

/-- Output of agent T or F. -/
structure AgentOutput where
  signals : List AgentSignal
  market_view : String
deriving DecidableEq

/-- Output of agent R. -/
structure ROutput where
  decisions : List RDecision
  risk_assessment : String
deriving DecidableEq

/-- Result of the merger (signal batch plus its `action_type`; the
journal/summary strings of the source output are not modelled). -/
structure MergeResult where
  action_type : String
  signals : List MergedSig
deriving DecidableEq

/-- Embeds `_get_agent_signal` (src/brain/signal_merger.py lines
95-100). -/
def get_agent_signal (out : AgentOutput) (symbol : String) : Option AgentSignal :=
  out.signals.find? (fun s => decide (s.symbol = symbol))

/-- Embeds `merge_signals` (src/brain/signal_merger.py lines 182-498):
per-symbol arbitration through `merge_symbol`, then the `action_type`
computation over the merged batch. -/
def merge_signals (now : ℤ) (technician_output flow_output : AgentOutput)
    (risk_output : ROutput) (symbols : List String)
    (positions : List Position) (min_confidence : ℚ)
    (market_data : Option MarketData) (trade_history : List Trade) : MergeResult :=
  let merged := symbols.map (fun symbol =>
    merge_symbol now symbol (get_agent_signal technician_output symbol)
      (get_agent_signal flow_output symbol)
      (risk_output.decisions.find? (fun d => decide (d.symbol = symbol)))
      positions trade_history market_data)
  let has_trade := merged.any (fun s =>
    decide ((s.action = "long" ∨ s.action = "short" ∨ s.action = "close") ∧
      s.confidence ≥ min_confidence))
  let has_close := merged.any (fun s => decide (s.action = "close"))
  ⟨if has_trade || has_close then "trade" else "hold", merged⟩

/-! ## Concrete sample data used by witnesses and counterexamples -/

/-- Executor environment with a neutral client (orders error out, close
finds no position). -/
def sampleEnv : ExecEnv :=
  ⟨"all", 7/10, 3, 1000, [], fun _ _ _ => RiskOutcome.allowed,
   fun _ _ => (true, "composite gate passed"), fun _ _ => none, fun _ => 0,
   fun _ _ _ _ => none, fun _ _ _ _ => ⟨"error", 0, ""⟩,
   fun _ => ⟨"no_position", 0, ""⟩, [], 0⟩

/-- A hold signal for BTC. -/
def holdSigEx : Signal := ⟨"BTC", "hold", 0, none, none, none, none, none, "", none, none⟩

/-- A close signal for BTC with full confidence. -/
def closeSigEx : Signal := ⟨"BTC", "close", 1, none, none, none, none, none, "", none, none⟩

/-- Environment whose client reports a successful close at fill price
100 while the cached positions list is empty. -/
def envNoCache : ExecEnv :=
  ⟨"all", 7/10, 3, 1000, [], fun _ _ _ => RiskOutcome.allowed,
   fun _ _ => (true, "composite gate passed"), fun _ _ => none, fun _ => 0,
   fun _ _ _ _ => none, fun _ _ _ _ => ⟨"error", 0, ""⟩,
   fun _ => ⟨"closed", 100, ""⟩, [], 0⟩

/-- Daily record one dollar of unrealized away from an empty positions
sum. -/
def pnlBoundary : DailyPnl := ⟨"2026-10-12", 0, 0, some 100, 100, 100⟩

/-- One BTC position carrying exactly one dollar of unrealized P&L. -/
def posBoundary : List Position := [⟨"BTC", 1, "long", 0, 1, none⟩]

/-- Daily record used by the peak-equity witness. -/
def pnlPeakW : DailyPnl := ⟨"2026-10-12", 5, 0, some 1000, 1002, 1001⟩

/-- Daily P&L record of the spec scenario "kill-switch on daily loss":
start 1000, realized −40, unrealized −15, equity 945. -/
def dailyLossC6 : DailyPnl := ⟨"2026-10-12", -40, -15, some 1000, 945, 1000⟩

/-- A disabled kill-switch file. -/
def ksDisabled : KSStatus := ⟨false, "", ""⟩

/-- Long entry signal with inverted geometry (stop above entry, target
below entry) whose direction-measured reward/risk ratio is still 2. -/
def sigRRcx : Signal :=
  ⟨"BTC", "long", 8/10, some 100, some 110, some 80, none, none, "", none, none⟩

/-- Long entry signal with regular geometry and reward/risk = 2. -/
def sigRRw : Signal :=
  ⟨"BTC", "long", 8/10, some 100, some 95, some 110, none, none, "", none, none⟩

/-- A live ETH position with non-zero size and no exit metadata. -/
def posLiveEth : List Position := [⟨"ETH", 1/2, "long", 2000, 10, none⟩]

/-- Ten 5-minute candles with unit volume. -/
def candlesVolOne : List Candle := List.replicate 10 ⟨0, 0, 0, 0, 0, 1⟩

/-- Three 5-minute candles with volume 2. -/
def candlesVolTwo : List Candle := List.replicate 3 ⟨0, 0, 0, 0, 0, 2⟩

/-- A BTC position opened 240 seconds (4 minutes) before the reference
time 1000. -/
def posMinHold : List Position := [⟨"BTC", 1/10, "long", 50000, 0, some 760⟩]

/-- Agent R proposes close with confidence 0.85 (below critical). -/
def rCloseDecision : RDecision :=
  ⟨"BTC", "approve", "close", 85/100, "momentum faded", none, none, none⟩

/-- Merger output for the min-hold scenario: R closes at 0.85 four
minutes after entry. -/
def mergeMinHoldOut : MergeResult :=
  merge_signals 1000 ⟨[], ""⟩ ⟨[], ""⟩ ⟨[rCloseDecision], ""⟩ ["BTC"]
    posMinHold (7/10) none []

end MyClaw

namespace MyClaw

/-! ## Claim theorems -/

/-- C2: for every signal whose action is hold or hold_position,
`execute_signal` returns `None` and performs no side effect at all; in
particular neither `place_market_order` nor `close_position` is invoked
for that symbol. -/
theorem execute_signal_hold_is_noop (env : ExecEnv) (signal : Signal)
    (h : signal.action = "hold" ∨ signal.action = "hold_position") :
    execute_signal env signal = (none, []) := by
  rcases h with h | h <;> simp [execute_signal, h]

/-- Witness for C2 at a concrete hold signal. -/
theorem execute_signal_hold_is_noop_witness :
    execute_signal sampleEnv holdSigEx = (none, []) :=
  execute_signal_hold_is_noop sampleEnv holdSigEx (Or.inl rfl)

/-- C4: within the same UTC day, one `update_daily_pnl` call sets
`peak_equity` to `max(previous peak, start_of_day + accumulated
realized)`, never decreases it, and the `api_unrealized_pnl` argument
(the unrealized component) has no influence on the peak. -/
theorem update_daily_pnl_peak_spec (prev : DailyPnl) (today : String)
    (equity realized : ℚ) (api : Option ℚ) (hday : prev.date = today) :
    (update_daily_pnl today prev equity realized api).peak_equity
      = max prev.peak_equity
          (prev.start_of_day_equity.getD equity + (prev.realized_pnl + realized))
    ∧ prev.peak_equity ≤ (update_daily_pnl today prev equity realized api).peak_equity
    ∧ ∀ api2 : Option ℚ,
        (update_daily_pnl today prev equity realized api2).peak_equity
          = (update_daily_pnl today prev equity realized api).peak_equity := by
  refine ⟨?_, ?_, ?_⟩ <;> simp [update_daily_pnl, hday]

/-- Witness for C4 at a concrete same-day record. -/
theorem update_daily_pnl_peak_spec_witness :
    (update_daily_pnl "2026-10-12" pnlPeakW 1010 4 (some 3)).peak_equity
      = max pnlPeakW.peak_equity
          (pnlPeakW.start_of_day_equity.getD 1010 + (pnlPeakW.realized_pnl + 4))
    ∧ pnlPeakW.peak_equity ≤ (update_daily_pnl "2026-10-12" pnlPeakW 1010 4 (some 3)).peak_equity
    ∧ ∀ api2 : Option ℚ,
        (update_daily_pnl "2026-10-12" pnlPeakW 1010 4 api2).peak_equity
          = (update_daily_pnl "2026-10-12" pnlPeakW 1010 4 (some 3)).peak_equity :=
  update_daily_pnl_peak_spec pnlPeakW "2026-10-12" 1010 4 (some 3) rfl

/-- C7 counterexample: with the default tolerance of one dollar and a
positions sum exactly one dollar away from the stored unrealized, the
difference is within (≤) the tolerance yet `reconcile_daily_unrealized`
rewrites the record, contradicting the claim that the record is left
unchanged whenever the difference is within the tolerance. -/
theorem reconcile_boundary_rewrites :
    |sum_unrealized_from_positions posBoundary - pnlBoundary.unrealized_pnl| ≤ 1
    ∧ (reconcile_daily_unrealized posBoundary pnlBoundary 1).unrealized_pnl
        ≠ pnlBoundary.unrealized_pnl := by
  constructor
  · norm_num [sum_unrealized_from_positions, posBoundary, pnlBoundary]
  · norm_num [reconcile_daily_unrealized, sum_unrealized_from_positions,
      posBoundary, pnlBoundary]

/-- C7 (amended): `reconcile_daily_unrealized` leaves the record
unchanged when the positions sum differs from the stored unrealized by
strictly less than the tolerance, and otherwise rewrites it so that
`unrealized_pnl` is the positions sum and `equity` is exactly
`start_of_day_equity + realized_pnl + unrealized_pnl`. -/
theorem reconcile_daily_unrealized_spec (positions : List Position)
    (pnl : DailyPnl) (tol : ℚ) :
    (|sum_unrealized_from_positions positions - pnl.unrealized_pnl| < tol →
      reconcile_daily_unrealized positions pnl tol = pnl)
    ∧ (¬ |sum_unrealized_from_positions positions - pnl.unrealized_pnl| < tol →
      (reconcile_daily_unrealized positions pnl tol).unrealized_pnl
        = sum_unrealized_from_positions positions
      ∧ (reconcile_daily_unrealized positions pnl tol).equity
        = pnl.start_of_day_equity.getD pnl.equity + pnl.realized_pnl
            + sum_unrealized_from_positions positions) := by
  constructor
  · intro h
    simp [reconcile_daily_unrealized, h]
  · intro h
    simp [reconcile_daily_unrealized, h]

/-- Witness for C7 on both sides of the tolerance. -/
theorem reconcile_daily_unrealized_spec_witness :
    reconcile_daily_unrealized [] pnlBoundary 1 = pnlBoundary
    ∧ (reconcile_daily_unrealized posBoundary pnlBoundary (1/2)).unrealized_pnl
        = sum_unrealized_from_positions posBoundary := by
  constructor
  · exact (reconcile_daily_unrealized_spec [] pnlBoundary 1).1
      (by norm_num [sum_unrealized_from_positions, pnlBoundary])
  · exact ((reconcile_daily_unrealized_spec posBoundary pnlBoundary (1/2)).2
      (by norm_num [sum_unrealized_from_positions, posBoundary, pnlBoundary])).1

/-- C10: when the exchange close succeeds with status "closed" for a
symbol absent from the cached positions list, `close_position` returns
the closed status but records no trade and performs no daily P&L
update: the only effect is the client close call, so
trade_history.json and daily_pnl.json are left unchanged. -/
theorem close_position_no_cached_entry (env : ExecEnv) (symbol : String)
    (hnone : ∀ p ∈ env.positions, ¬ p.symbol = symbol)
    (hclosed : (env.closeResult symbol).status = "closed") :
    close_position env symbol
      = (⟨symbol, "close", "closed", none, some (env.closeResult symbol).fill_price,
          none, none⟩,
         [Eff.closePositionCall symbol]) := by
  have hfind : env.positions.find? (fun p => decide (p.symbol = symbol)) = none := by
    rw [List.find?_eq_none]
    intro p hp
    simpa using hnone p hp
  simp [close_position, hfind, hclosed]

/-- Witness for C10: empty cached positions, client close succeeds. -/
theorem close_position_no_cached_entry_witness :
    close_position envNoCache "BTC"
      = (⟨"BTC", "close", "closed", none, some 100, none, none⟩,
         [Eff.closePositionCall "BTC"]) := by
  have h := close_position_no_cached_entry envNoCache "BTC"
    (by intro p hp; simp [envNoCache] at hp) (by decide)
  simpa using h

/-- C1 evaluation at the failing input: with state/kill_switch.json
absent, `kill_switch.is_active` reports the switch active, while
`StateManager.get_kill_switch_status` reports it disabled and
`execute_signals` therefore proceeds to execute signals (here it issues
an exchange close call) instead of returning the empty list. The code
contradicts the documented fail-safe (absent file = enabled). -/
theorem kill_switch_absent_fail_open :
    is_active none = true
    ∧ getKillSwitchStatus none = ⟨false, "", ""⟩
    ∧ (execute_signals envNoCache none (some [closeSigEx])).1 ≠ []
    ∧ Eff.closePositionCall "BTC" ∈ (execute_signals envNoCache none (some [closeSigEx])).2 := by
  refine ⟨rfl, rfl, ?_, ?_⟩ <;> decide

/-- C6: in the spec scenario (start 1000, realized −40, unrealized −15,
equity 945, 5% daily-loss limit) the supervisor risk block activates
the kill switch with reason daily_loss_5pct_exceeded and closes all
positions, and every later `execute_signals` call that reads the
activated switch file returns the empty list at once. -/
theorem daily_loss_kill_switch_scenario :
    monitor_risk_check (some ksDisabled) (some dailyLossC6) 5 15
      = ⟨some "daily_loss_5pct_exceeded", true⟩
    ∧ ∀ (env : ExecEnv) (sf : Option (List Signal)) (ts : String),
        execute_signals env (some (activate "daily_loss_5pct_exceeded" ts)) sf = ([], []) := by
  constructor
  · have hloss : check_daily_loss 5 (-40) (-15) 945 = true := by
      norm_num [check_daily_loss]
    simp [monitor_risk_check, dailyLossC6, ksDisabled, is_active, hloss]
    norm_num
  · intro env sf ts
    simp [execute_signals, activate, getKillSwitchStatus]

/-- C8 counterexample: a long signal with entry 100, stop 110, target
80 and min_rr 1.2 has direction-measured reward/risk = (−20)/(−10) = 2
≥ 1.2, yet the R:R check fails (invalid geometry), so the check passing
is not equivalent to reward/risk ≥ min_rr as claimed. -/
theorem check_rr_inverted_geometry_counterexample :
    (check_rr (6/5) sigRRcx "long").1 = false
    ∧ ((80 : ℚ) - 100) / (100 - 110) ≥ 6/5 := by
  constructor
  · simp [check_rr, sigRRcx]
    norm_num
  · norm_num

/-- C8 (amended): for a non-time-cut signal with present non-zero
entry/SL/TP, the R:R check passes iff the direction-measured risk and
reward are both positive and reward/risk reaches min_rr; and every
signal with exit_mode time_cut always passes the check. -/
theorem check_rr_spec (min_rr : ℚ) (signal : Signal) (action : String)
    (entry sl tp : ℚ)
    (hmode : ¬ signal.exit_mode = some "time_cut")
    (he : signal.entry_price = some entry) (hs : signal.stop_loss = some sl)
    (ht : signal.take_profit = some tp)
    (he0 : ¬ entry = 0) (hs0 : ¬ sl = 0) (ht0 : ¬ tp = 0) :
    ((check_rr min_rr signal action).1 = true ↔
      0 < (if action = "long" then entry - sl else sl - entry)
      ∧ 0 < (if action = "long" then tp - entry else entry - tp)
      ∧ min_rr ≤ (if action = "long" then tp - entry else entry - tp)
          / (if action = "long" then entry - sl else sl - entry))
    ∧ (∀ (sig2 : Signal) (act2 : String), sig2.exit_mode = some "time_cut" →
        (check_rr min_rr sig2 act2).1 = true) := by
  refine ⟨?_, fun sig2 act2 h2 => by simp [check_rr, h2]⟩
  simp only [check_rr, he, hs, ht, if_neg hmode]
  rw [if_neg (by simp [he0, hs0, ht0])]
  set risk := (if action = "long" then entry - sl else sl - entry) with hrisk
  set reward := (if action = "long" then tp - entry else entry - tp) with hreward
  split_ifs with hgeo hrr
  · refine iff_of_false (by simp) ?_
    rintro ⟨ha, hb, _⟩
    rcases hgeo with h | h <;> linarith
  · refine iff_of_false (by simp) ?_
    rintro ⟨_, _, hc⟩
    exact absurd hc (not_le.mpr hrr)
  · push_neg at hgeo hrr
    exact iff_of_true rfl ⟨hgeo.1, hgeo.2, hrr⟩

/-- Witness for C8 at a regular long signal (risk 5, reward 10,
ratio 2 ≥ 1.2). -/
theorem check_rr_spec_witness :
    (check_rr (6/5) sigRRw "long").1 = true := by
  have h := check_rr_spec (6/5) sigRRw "long" 100 95 110
    (by simp [sigRRw]) rfl rfl rfl (by norm_num) (by norm_num) (by norm_num)
  exact h.1.mpr (by norm_num)

/-- C5: when a live position with non-zero size exists but the exit
meta file is absent or carries no direction, the exit scan emits
exactly the meta-less `hold_position` signal (never an empty result
that would let the fallback path double-enter). -/
theorem check_rubber_exits_metaless (symbol : String) (metaFile : Option RubberMeta)
    (positionsFile : Option (List Position)) (mid : ℚ)
    (hmeta : metaInvalid metaFile = true)
    (hlive : has_live_position positionsFile symbol = true) :
    (check_rubber_exits symbol metaFile positionsFile mid).1
      = [⟨symbol, "hold_position", "hold_position", 1,
          symbol ++ "Rubber holding (meta-less): live position detected, meta file missing. Manual close may be required.",
          "holding", "unknown"⟩] := by
  simp [check_rubber_exits, hmeta, hlive]

/-- Witness for C5: ETH has a live half-coin position and no meta
file. -/
theorem check_rubber_exits_metaless_witness :
    (check_rubber_exits "ETH" none (some posLiveEth) 2000).1
      = [⟨"ETH", "hold_position", "hold_position", 1,
          "ETH" ++ "Rubber holding (meta-less): live position detected, meta file missing. Manual close may be required.",
          "holding", "unknown"⟩] :=
  check_rubber_exits_metaless "ETH" none (some posLiveEth) 2000 rfl
    (by with_unfolding_all decide)

/-- C3 counterexample: with window 10, threshold 3 and nine known unit
volumes (S = 9), the cache stores `round(T*S/(N-T), 4) = 3.8571`, not
the exact value `T*S/(N-T) = 27/7`, so the stored `threshold_vol` is
not equal to T·S/(N−T) as claimed. -/
theorem build_next_cache_round_counterexample :
    (build_next_cache candlesVolOne 9 10 3).threshold_vol
      ≠ some (3 * 9 / ((10 : ℚ) - 3)) := by
  with_unfolding_all decide

/-- C3 (amended): over a fully known prior window (N−1 bars) the cache
stores `round(T·S/(N−T), 4)` when N > T and infinity (`none`) when
N ≤ T, and the unrounded value T·S/(N−T) is the minimum volume V with
`V / ((S+V)/N) ≥ T` (for any S ≥ 0, V ≥ 0 with S+V > 0). -/
theorem build_next_cache_spec (candles : List Candle) (i W : ℕ) (T : ℚ)
    (hW : 1 ≤ W) (hfull : W ≤ i + 2) (hlen : i + 1 ≤ candles.length) :
    ((T < (W : ℚ)) →
      (build_next_cache candles i W T).threshold_vol
        = some (pyRound (T * sumVolRange candles (i + 2 - W) (i + 1) / ((W : ℚ) - T)) 4))
    ∧ (((W : ℚ) ≤ T) → (build_next_cache candles i W T).threshold_vol = none)
    ∧ (0 < T → T < (W : ℚ) →
        ∀ S V : ℚ, 0 ≤ S → 0 ≤ V → 0 < S + V →
          (V / ((S + V) / (W : ℚ)) ≥ T ↔ V ≥ T * S / ((W : ℚ) - T))) := by
  have hstart : (max 0 (((i + 1 : ℕ) : ℤ) - ((W : ℕ) : ℤ) + 1)).toNat = i + 2 - W := by
    omega
  have hstop : min (i + 1) candles.length = i + 1 := by omega
  have hn : ((i + 1 - (i + 2 - W) + 1 : ℕ) : ℚ) = (W : ℚ) := by
    have : i + 1 - (i + 2 - W) + 1 = W := by omega
    rw [this]
  refine ⟨?_, ?_, ?_⟩
  · intro hT
    simp only [build_next_cache, hstart, hstop, hn]
    rw [if_neg (by simp only [not_le]; linarith)]
  · intro hT
    simp only [build_next_cache, hstart, hstop, hn]
    rw [if_pos (by linarith)]
  · intro hT0 hTW S V hS hV hSV
    have hWT : (0 : ℚ) < (W : ℚ) - T := by linarith
    rw [ge_iff_le, ge_iff_le, div_div_eq_mul_div, le_div_iff₀ hSV, div_le_iff₀ hWT]
    constructor <;> intro h <;> nlinarith [h]

/-- Witness for C3 over a full window (W = 3, T = 2, S = 4): the cache
stores 2·4/(3−2) = 8. -/
theorem build_next_cache_spec_witness :
    (build_next_cache candlesVolTwo 1 3 2).threshold_vol = some 8 := by
  have h := build_next_cache_spec candlesVolTwo 1 3 2 (by norm_num)
    (by norm_num) (by norm_num [candlesVolTwo])
  rw [h.1 (by norm_num)]
  with_unfolding_all decide

/-- Helper: the hold reason built by the min-hold branch always
contains the marker substring, whatever the formatted tail pieces are. -/
theorem pyIn_min_hold_chain (a b c d e : String) :
    pyIn "最低保有時間" ("[最低保有時間] エントリーから" ++ a ++ b ++ c ++ d ++ e) = true := by
  unfold pyIn
  rw [decide_eq_true_eq]
  refine ⟨"[".data, ("] エントリーから" ++ a ++ b ++ c ++ d ++ e).data, ?_⟩
  simp [String.data_append, List.append_assoc]

set_option maxRecDepth 8000 in
/-- C9 counterexample: position opened 4 minutes ago, R closes with
confidence 0.85; the merger converts the close to hold, but the hold
reasoning does not contain the substring "min hold" (the marker is the
Japanese 最低保有時間), refuting the claim as literally stated. -/
theorem merge_signals_min_hold_counterexample :
    mergeMinHoldOut.signals.map (fun s => s.action) = ["hold"]
    ∧ mergeMinHoldOut.signals.all (fun s => ! pyIn "min hold" s.reasoning) = true := by
  constructor <;> with_unfolding_all decide

/-- C9 (amended): when the position was opened within the 10-minute
minimum-hold window and any agent proposes close, the merger emits a
hold whose reasoning contains the min-hold marker 最低保有時間 unless
the risk agent issues a critical close (final_action close with
confidence ≥ 0.90), in which case the close is emitted. -/
theorem merge_symbol_min_hold_spec (now : ℤ) (symbol : String)
    (t_sig f_sig : Option AgentSignal) (r_decision : Option RDecision)
    (positions : List Position) (trade_history : List Trade)
    (market_data : Option MarketData)
    (hclose : (t_sig.map (fun s => s.action)).getD "hold" = "close"
      ∨ (f_sig.map (fun s => s.action)).getD "hold" = "close"
      ∨ (r_decision.map (fun d => d.final_action)).getD "hold" = "close")
    (hwithin : is_within_min_hold_period now
        (get_position_opened_at positions symbol trade_history) = true) :
    (¬ ((r_decision.map (fun d => d.final_action)).getD "hold" = "close"
        ∧ (r_decision.map (fun d => d.confidence)).getD 0 ≥ R_CRITICAL_CLOSE_CONF) →
      (merge_symbol now symbol t_sig f_sig r_decision positions trade_history market_data).action = "hold"
      ∧ pyIn "最低保有時間"
          (merge_symbol now symbol t_sig f_sig r_decision positions trade_history market_data).reasoning = true)
    ∧ (((r_decision.map (fun d => d.final_action)).getD "hold" = "close"
        ∧ (r_decision.map (fun d => d.confidence)).getD 0 ≥ R_CRITICAL_CLOSE_CONF) →
      (merge_symbol now symbol t_sig f_sig r_decision positions trade_history market_data).action = "close") := by
  constructor
  · intro hnc
    simp only [merge_symbol]
    rw [if_pos hclose, if_pos hwithin, if_pos hnc]
    exact ⟨rfl, pyIn_min_hold_chain _ _ _ _ _⟩
  · intro hc
    simp only [merge_symbol]
    rw [if_pos hclose, if_pos hwithin, if_neg (not_not_intro hc)]

/-- Witness for C9: the 4-minute-old position with a 0.85-confidence R
close yields a hold whose reasoning carries the min-hold marker. -/
theorem merge_symbol_min_hold_spec_witness :
    (merge_symbol 1000 "BTC" none none (some rCloseDecision) posMinHold [] none).action = "hold"
    ∧ pyIn "最低保有時間"
        (merge_symbol 1000 "BTC" none none (some rCloseDecision) posMinHold [] none).reasoning = true := by
  have h := merge_symbol_min_hold_spec 1000 "BTC" none none (some rCloseDecision)
    posMinHold [] none (by with_unfolding_all decide) (by with_unfolding_all decide)
  exact h.1 (by with_unfolding_all decide)

end MyClaw
